import Mathlib

/-!
Verification of the `audio-file-tools` WAV codec (WavUtils / WavReader /
WavWriter) against its natural-language specification.

Machine integers are embedded as `Int` (signed) or `Nat` (unsigned) with
explicit wrapping: a C `static_cast` to an n-bit type is modelled by
reduction modulo `2^n` (into the signed range for signed targets), an
arithmetic right shift `>> k` on a two's-complement integer is `Int.ediv`
by `2^k` (the divisor is positive, so Euclidean division coincides with
floor division, which is exactly what an arithmetic shift computes), and
`& 0xFF` on a two's-complement integer of any sign is `Int.emod` by `256`.
-/

namespace WavTools

/-- Model of `static_cast<uint8_t>` of a C `int`: the value modulo `2^8`. -/
def wrapU8 (x : Int) : Int := x % 256

/-- Model of `static_cast<int16_t>` of a C `int`: two's-complement wrap into
`[-2^15, 2^15)`. -/
def wrapS16 (x : Int) : Int := (x + 32768) % 65536 - 32768

/-- Model of `static_cast<int32_t>` of a C `int`: two's-complement wrap into
`[-2^31, 2^31)`. -/
def wrapS32 (x : Int) : Int := (x + 2147483648) % 4294967296 - 2147483648

/-- Arithmetic right shift by `k` bits of a two's-complement integer. -/
def asr (x : Int) (k : Nat) : Int := x / 2 ^ k

/-! ## Sample Conversion Matrix (src/src/WavUtils.cpp)

Each integer-to-integer converter is translated from its C body.  The
argument ranges (`uint8_t` in `[0,256)`, `int16_t` in `[-2^15,2^15)`,
`int32_t` in `[-2^31,2^31)`) are carried as hypotheses on the theorems,
not baked into the definitions. -/

/-- Model of `convert_int16_to_uint8`: `static_cast<uint8_t>(((sample >> 8) + 128) & 0xFF)`. -/
def convert_int16_to_uint8 (sample : Int) : Int :=
  wrapU8 ((asr sample 8 + 128) % 256)

/-- Model of `convert_int32_to_uint8`: `static_cast<uint8_t>(((sample >> 24) + 128) & 0xFF)`. -/
def convert_int32_to_uint8 (sample : Int) : Int :=
  wrapU8 ((asr sample 24 + 128) % 256)

/-- Model of `convert_uint8_to_int16`: `static_cast<int16_t>((sample - 128) * 256)`. -/
def convert_uint8_to_int16 (sample : Int) : Int :=
  wrapS16 ((sample - 128) * 256)

/-- Model of `convert_int32_to_int16`: `static_cast<int16_t>(sample >> 16)`. -/
def convert_int32_to_int16 (sample : Int) : Int :=
  wrapS16 (asr sample 16)

/-- Model of `convert_uint8_to_int24`: `static_cast<int32_t>((sample - 128) * 65536)`. -/
def convert_uint8_to_int24 (sample : Int) : Int :=
  wrapS32 ((sample - 128) * 65536)

/-- Model of `convert_int16_to_int24`: `static_cast<int32_t>(sample << 8)`; the shift
happens after integer promotion, so it is multiplication by `2^8` wrapped to
the 32-bit `int` width. -/
def convert_int16_to_int24 (sample : Int) : Int :=
  wrapS32 (sample * 256)

/-- Model of `convert_int32_to_int24`: `static_cast<int32_t>(sample >> 8)`. -/
def convert_int32_to_int24 (sample : Int) : Int :=
  wrapS32 (asr sample 8)

/-- Model of `convert_uint8_to_int32`: `static_cast<int32_t>((sample - 128) << 24)`. -/
def convert_uint8_to_int32 (sample : Int) : Int :=
  wrapS32 ((sample - 128) * 16777216)

/-- Model of `convert_int16_to_int32`: `static_cast<int32_t>(sample) << 16`. -/
def convert_int16_to_int32 (sample : Int) : Int :=
  wrapS32 (sample * 65536)

/-! ### Spec formulas (§4.1 of the spec, stated independently)

These follow the spec's table verbatim, written directly as integer
arithmetic with no wrapping casts, for comparison with the source
translations above. -/

/-- Spec formula `((x >> 8) + 128) & 0xFF`. -/
def spec_int16_to_uint8 (x : Int) : Int := (asr x 8 + 128) % 256

/-- Spec formula `((x >> 24) + 128) & 0xFF`. -/
def spec_int32_to_uint8 (x : Int) : Int := (asr x 24 + 128) % 256

/-- Spec formula `(x - 128) * 256`. -/
def spec_uint8_to_int16 (x : Int) : Int := (x - 128) * 256

/-- Spec formula `x >> 16` (arithmetic shift). -/
def spec_int32_to_int16 (x : Int) : Int := asr x 16

/-- Spec formula `(x - 128) * 65536`. -/
def spec_uint8_to_int24 (x : Int) : Int := (x - 128) * 65536

/-- Spec formula `x << 8`. -/
def spec_int16_to_int24 (x : Int) : Int := x * 256

/-- Spec formula `x >> 8` (arithmetic shift). -/
def spec_int32_to_int24 (x : Int) : Int := asr x 8

/-- Spec formula `(x - 128) << 24`. -/
def spec_uint8_to_int32 (x : Int) : Int := (x - 128) * 16777216

/-- Spec formula `x << 16`. -/
def spec_int16_to_int32 (x : Int) : Int := x * 65536

/-! ## Bytes and little-endian encodings

Files are byte sequences; a byte is a `Nat` (kept below `256` by
construction).  Multi-byte fields are little-endian. -/

/-- Little-endian bytes of a `u32` value (low 32 bits). -/
def encodeU32LE (v : Nat) : List Nat :=
  [v % 256, v / 256 % 256, v / 65536 % 256, v / 16777216 % 256]

/-- Little-endian bytes of a `u16` value (low 16 bits). -/
def encodeU16LE (v : Nat) : List Nat := [v % 256, v / 256 % 256]

/-- Decode a little-endian `u32` from the first four bytes of a list. -/
def leU32 (l : List Nat) : Nat :=
  l.getD 0 0 + 256 * l.getD 1 0 + 65536 * l.getD 2 0 + 16777216 * l.getD 3 0

/-- Decode a little-endian `u16` from the first two bytes of a list. -/
def leU16 (l : List Nat) : Nat := l.getD 0 0 + 256 * l.getD 1 0

/-- Byte `k` (little-endian) of a two's-complement 32-bit integer:
`(x >> 8k) & 0xFF`. -/
def byteOfInt (x : Int) (k : Nat) : Nat := (asr x (8 * k) % 256).toNat

/-- Little-endian byte serialization of an `int16_t` sample. -/
def int16Bytes (x : Int) : List Nat := [byteOfInt x 0, byteOfInt x 1]

/-- Little-endian byte serialization of an `int32_t` sample. -/
def int32Bytes (x : Int) : List Nat :=
  [byteOfInt x 0, byteOfInt x 1, byteOfInt x 2, byteOfInt x 3]

/-- Byte serialization of a `uint8_t` sample. -/
def uint8Bytes (x : Int) : List Nat := [(x % 256).toNat]

/-! ## Configuration (src/inc/AudioFileTools/WavConfiguration.h) -/

/-- Model of `enum class WavFormat { PCM = 1, FLOAT = 3 }`. -/
inductive WavFormatKind where
  | PCM : WavFormatKind
  | FLOAT : WavFormatKind
deriving DecidableEq

/-- The numeric tag of a `WavFormat` value. -/
def formatCode : WavFormatKind → Nat
  | .PCM => 1
  | .FLOAT => 3

/-- Model of `struct WavFileConfiguration` (the `filename` string is an external
detail and is not part of the model; enum-typed fields are carried as the
numeric values of their enumerators). -/
structure WavFileConfiguration where
  sampleRate : Nat
  numChannels : Nat
  bitDepth : Nat
  format : WavFormatKind
  blockAlign : Nat
  dataChunkSize : Nat
deriving DecidableEq

/-- The default member initializers of `WavFileConfiguration`. -/
def defaultConfig : WavFileConfiguration :=
  { sampleRate := 16000, numChannels := 1, bitDepth := 32,
    format := .FLOAT, blockAlign := 0, dataChunkSize := 0 }

/-! ## Writer state (src/src/WavWriter.cpp, src/inc/WavWriter.h)

The output file is a random-access byte store `Nat → Nat` together with
the current end-of-file position; ordinary writes append at the end, and
`finalize_header` seeks back and overwrites fixed-width fields in place. -/

/-- Overwrite the bytes `bs` into the store `f` starting at `off`. -/
def storeBytes (f : Nat → Nat) (off : Nat) (bs : List Nat) : Nat → Nat :=
  fun i => if off ≤ i ∧ i < off + bs.length then bs.getD (i - off) 0 else f i

/-- Read back a little-endian `u32` at offset `off` of the store. -/
def readU32At (f : Nat → Nat) (off : Nat) : Nat :=
  f off + 256 * f (off + 1) + 65536 * f (off + 2) + 16777216 * f (off + 3)

/-- The mutable state of a `WavWriter`: the open flag of `m_fileStream`,
the `uint32_t m_totalFileSize` accumulator, and the target file. -/
structure WriterState where
  fileOpen : Bool
  totalFileSize : Nat
  fileSize : Nat
  file : Nat → Nat

/-- Append bytes at the end of the writer's file. -/
def appendBytes (s : WriterState) (bs : List Nat) : WriterState :=
  { s with file := storeBytes s.file s.fileSize bs,
           fileSize := s.fileSize + bs.length }

/-- Model of `WavWriter::write_samples`: append the formatted bytes and accumulate
`m_totalFileSize` by the element count when `ignoreSize` is set (the PCM24
path, whose elements are single bytes) and by `count * sizeof(T)`
otherwise; the accumulator is a `uint32_t`, hence the wrap. -/
def write_samples (s : WriterState) (encoded : List Nat)
    (numSamples sizeofT : Nat) (ignoreSize : Bool) : WriterState :=
  { appendBytes s encoded with
      totalFileSize :=
        (s.totalFileSize +
          if ignoreSize then numSamples else numSamples * sizeofT) %
          4294967296 }

/-- Model of `WavWriter::finalize_header`: seek to byte offset 4 and overwrite the
RIFF chunk size `36 + m_totalFileSize`, then seek to byte offset 40 and
overwrite the data-subchunk size `m_totalFileSize` (both `uint32_t`). -/
def finalize_header (s : WriterState) : WriterState :=
  let f1 := storeBytes s.file 4 (encodeU32LE (36 + s.totalFileSize))
  { s with file := storeBytes f1 40 (encodeU32LE s.totalFileSize) }

/-- Model of `WavWriter::close_file`: no-op when the stream is already closed;
otherwise finalize the header and close the stream. -/
def close_file (s : WriterState) : WriterState :=
  if s.fileOpen then { finalize_header s with fileOpen := false } else s

/-- Model of `WavWriter::~WavWriter`: `if (m_fileStream.is_open()) close_file();`. -/
def writerDestructor (s : WriterState) : WriterState :=
  if s.fileOpen then close_file s else s

/-- Model of `WavWriter::write_header`: the provisional 44-byte header with zero
placeholders for the RIFF chunk size and data-subchunk size. -/
def write_header (cfg : WavFileConfiguration) : List Nat :=
  [82, 73, 70, 70] ++ encodeU32LE 0 ++ [87, 65, 86, 69] ++
  [102, 109, 116, 32] ++ encodeU32LE 16 ++
  encodeU16LE (formatCode cfg.format) ++ encodeU16LE cfg.numChannels ++
  encodeU32LE cfg.sampleRate ++
  encodeU32LE (cfg.sampleRate * cfg.numChannels * (cfg.bitDepth / 8)) ++
  encodeU16LE (cfg.numChannels * (cfg.bitDepth / 8)) ++
  encodeU16LE cfg.bitDepth ++
  [100, 97, 116, 97] ++ encodeU32LE 0

/-- Model of `WavWriter::create` / `open_file`: opening performs no validation of
the configuration — it opens the target path (`canOpen` abstracts the file
system's answer), emits the provisional header, and succeeds. -/
def writerCreate (cfg : WavFileConfiguration) (canOpen : Bool) :
    Option WriterState :=
  if canOpen then
    some { fileOpen := true, totalFileSize := 0, fileSize := 44,
           file := fun i => (write_header cfg).getD i 0 }
  else none

/-! ## The write paths (src/inc/WavWriter.h)

Each `write_to_*` member interleaves the (already per-type-converted)
samples frame-major and hands the formatted buffer to `write_samples`.
The per-sample conversion applied before packing is the Conversion Matrix
entry for the input type; the packing functions below take the converted
sample as a function `ch ↦ i ↦ value` so that one definition covers every
input `DataType` instantiation of the template. -/

/-- Frame-major interleaving: element `i * nc + ch` of the result is
`f ch i` (`interleavedSamples[i * numChannels + ch] = sampleArrays[ch][i]`). -/
def interleave {α : Type} (f : Nat → Nat → α) (count nc : Nat) : List α :=
  (List.range count).flatMap fun i => (List.range nc).map fun ch => f ch i

/-- Model of `interleavedSamples[idx] = b` on a `std::vector`: an in-bounds store
updates the element, an out-of-bounds store is undefined behaviour and is
modelled as a failure. -/
def vecSet (l : List Nat) (idx b : Nat) : Option (List Nat) :=
  if idx < l.length then some (l.set idx b) else none

/-- The byte-buffer index used by `WavWriter::write_to_pcm24` for byte `k`
of the sample for frame `i`, channel `ch`:
`((i * numChannels + ch) * 3 + k) * numChannels + ch`. -/
def pcm24PackIndex (i ch k nc : Nat) : Nat := ((i * nc + ch) * 3 + k) * nc + ch

/-- The payload offset the spec assigns to byte `k` of the sample for
frame `i`, channel `ch`: `(i * numChannels + ch) * 3 + k` (three bytes per
sample, interleaved frame-major with no padding). -/
def spec_pcm24_offset (i ch k : Nat) (nc : Nat) : Nat := (i * nc + ch) * 3 + k

/-- The three stores `write_to_pcm24` performs for one converted sample:
bytes `sample & 0xFF`, `(sample >> 8) & 0xFF`, `(sample >> 16) & 0xFF` at
the indices `pcm24PackIndex i ch k nc`, `k = 0, 1, 2`. -/
def pcm24StoreSample (nc i ch : Nat) (sample : Int) (buf : List Nat) :
    Option (List Nat) :=
  (vecSet buf (pcm24PackIndex i ch 0 nc) (byteOfInt sample 0)).bind fun b1 =>
  (vecSet b1 (pcm24PackIndex i ch 1 nc) (byteOfInt sample 1)).bind fun b2 =>
  vecSet b2 (pcm24PackIndex i ch 2 nc) (byteOfInt sample 2)

/-- The double loop of `write_to_pcm24` over frames `i < count` and
channels `ch < nc`, starting from the zero-initialized byte buffer of size
`count * numChannels * 3`. -/
def pcm24PackLoop (f : Nat → Nat → Int) (count nc : Nat) :
    Option (List Nat) :=
  (List.range count).foldl
    (fun acc i =>
      (List.range nc).foldl
        (fun acc2 ch => acc2.bind (pcm24StoreSample nc i ch (f ch i)))
        acc)
    (some (List.replicate (count * nc * 3) 0))

/-- Model of `WavWriter::write_to_pcm8`: interleave the samples converted to
`uint8_t` and write them, one byte each. -/
def write_to_pcm8 (f : Nat → Nat → Int) (count nc : Nat) (s : WriterState) :
    WriterState :=
  write_samples s ((interleave f count nc).map fun x => (x % 256).toNat)
    (count * nc) 1 false

/-- Model of `WavWriter::write_to_pcm16`: interleave the samples converted to
`int16_t` and write them, two little-endian bytes each. -/
def write_to_pcm16 (f : Nat → Nat → Int) (count nc : Nat) (s : WriterState) :
    WriterState :=
  write_samples s (((interleave f count nc).map int16Bytes).flatten)
    (count * nc) 2 false

/-- Model of `WavWriter::write_to_pcm24`: pack the converted samples three bytes
each through `pcm24PackLoop`, then `write_samples(buffer, true)` (the
element count of the byte buffer, `count * nc * 3`, is what accumulates). -/
def write_to_pcm24 (f : Nat → Nat → Int) (count nc : Nat) (s : WriterState) :
    Option WriterState :=
  (pcm24PackLoop f count nc).map fun buf =>
    write_samples s buf (count * nc * 3) 1 true

/-- Model of `WavWriter::write_to_pcm32`: interleave the samples converted to
`int32_t` and write them, four little-endian bytes each. -/
def write_to_pcm32 (f : Nat → Nat → Int) (count nc : Nat) (s : WriterState) :
    WriterState :=
  write_samples s (((interleave f count nc).map int32Bytes).flatten)
    (count * nc) 4 false

/-- Model of `WavWriter::write_to_float32`: interleave the samples converted to
`float` and write them, `sizeof(float) = 4` bytes each.  The IEEE-754
serialization of one float sample is abstracted as `floatBytes ch i`
(a 4-byte group); the member is only reached with
`bitDepth == BIT_DEPTH_32`. -/
def write_to_float32 (floatBytes : Nat → Nat → List Nat) (count nc : Nat)
    (s : WriterState) : WriterState :=
  write_samples s ((interleave floatBytes count nc).flatten) (count * nc) 4
    false

/-- Model of `WavWriter::write_buffer`, at the `DataType = int32_t` instantiation:
dispatch on the configured format and bit depth; `f ch i` is the caller's
input sample `sampleArrays[ch][i]`, converted per path by the Conversion
Matrix (`cf32` abstracts `convert_int32_to_float` composed with IEEE-754
serialization).  The PCM24 path can fault (out-of-bounds vector store). -/
def write_buffer (cfg : WavFileConfiguration) (cf32 : Int → List Nat)
    (f : Nat → Nat → Int) (count : Nat) (s : WriterState) :
    Option WriterState :=
  match cfg.format with
  | .FLOAT => some (write_to_float32 (fun ch i => cf32 (f ch i)) count
      cfg.numChannels s)
  | .PCM =>
    if cfg.bitDepth = 8 then
      some (write_to_pcm8 (fun ch i => convert_int32_to_uint8 (f ch i)) count
        cfg.numChannels s)
    else if cfg.bitDepth = 16 then
      some (write_to_pcm16 (fun ch i => convert_int32_to_int16 (f ch i)) count
        cfg.numChannels s)
    else if cfg.bitDepth = 24 then
      write_to_pcm24 (fun ch i => convert_int32_to_int24 (f ch i)) count
        cfg.numChannels s
    else if cfg.bitDepth = 32 then
      some (write_to_pcm32 f count cfg.numChannels s)
    else some s

/-- The observable outcome of `WavWriter::write`: either the
`assert(num_arrays == m_config.numChannels)` fires, or `write_buffer`
runs. -/
inductive WriteCall where
  | assertionFailure : WriteCall
  | completed (result : Option WriterState) : WriteCall

/-- Model of `WavWriter::write`: `num_arrays` is the number of channel pointers the
caller supplied; the assertion is checked before any sample is touched,
then the assembled pointer array is handed to `write_buffer`. -/
def writerWrite (numArrays : Nat) (cfg : WavFileConfiguration)
    (cf32 : Int → List Nat) (f : Nat → Nat → Int) (count : Nat)
    (s : WriterState) : WriteCall :=
  if numArrays = cfg.numChannels then
    .completed (write_buffer cfg cf32 f count s)
  else .assertionFailure

/-! ## Reader header parse (src/src/WavReader.cpp)

The input stream is the file's byte list.  `std::ifstream` reads that run
past the end deliver the bytes that remain and set the fail state; every
such situation makes `read_header` return `false`, which the model renders
as `none`.  A forward `seekg` past the end is modelled by `List.drop`
(the stream does not fault on the seek; the next 4-byte id read then comes
up short and the scan loop breaks without both chunks found). -/

/-- The four chunk/marker ids the parser compares against. -/
def riffId : List Nat := [82, 73, 70, 70]

/-- Model of `"WAVE"`. -/
def waveId : List Nat := [87, 65, 86, 69]

/-- Model of `"fmt "`. -/
def fmtId : List Nat := [102, 109, 116, 32]

/-- Model of `"data"`. -/
def dataId : List Nat := [100, 97, 116, 97]

/-- Model of `(subchunkSize + 1) & ~1`: the declared size rounded up to the next
even byte (the RIFF padding rule).  `subchunkSize` is a `uint32_t`, so the
`+ 1` wraps: at declared size `4294967295` the computed skip is `0`. -/
def roundUpEven (s : Nat) : Nat := (s + 1) % 4294967296 / 2 * 2

/-- The sample-rate validation of `WavReader::read_header` (the
enumerated set). -/
def sampleRateAllowed (sr : Nat) : Prop :=
  sr = 8000 ∨ sr = 11025 ∨ sr = 16000 ∨ sr = 22050 ∨ sr = 32000 ∨
  sr = 44100 ∨ sr = 48000 ∨ sr = 96000 ∨ sr = 176400 ∨ sr = 192000 ∨
  sr = 352800 ∨ sr = 384000

instance (sr : Nat) : Decidable (sampleRateAllowed sr) := by
  unfold sampleRateAllowed; infer_instance

/-- The `SCAN_CHUNKS` loop of `WavReader::read_header`: read a 4-byte
subchunk id and 4-byte size; parse and validate a `"fmt "` chunk, record
the size of a `"data"` chunk, and skip any other chunk whole (size rounded
up to even); stop with success exactly when both have been found, and fail
on stream exhaustion or any read fault. -/
def scanChunks (rem : List Nat) (foundFmt foundData : Bool)
    (cfg : WavFileConfiguration) : Option WavFileConfiguration :=
  if foundFmt ∧ foundData then some cfg
  else if h4 : rem.length < 4 then none
  else
    let id := rem.take 4
    let r1 := rem.drop 4
    if h8 : r1.length < 4 then none
    else
      let size := leU32 (r1.take 4)
      let r2 := r1.drop 4
      if id = fmtId then
        if r2.length < 16 then none
        else
          let audioFormat := leU16 (r2.take 2)
          let numChannels := leU16 ((r2.drop 2).take 2)
          let sampleRate := leU32 ((r2.drop 4).take 4)
          let blockAlign := leU16 ((r2.drop 12).take 2)
          let bitDepth := leU16 ((r2.drop 14).take 2)
          let r3 := (r2.drop 16).drop (size - 16)
          if audioFormat = 1 ∨ audioFormat = 3 then
            if 0 < numChannels then
              if bitDepth = 8 ∨ bitDepth = 16 ∨ bitDepth = 24 ∨
                  bitDepth = 32 then
                if sampleRateAllowed sampleRate then
                  let format : WavFormatKind :=
                    if audioFormat = 1 then .PCM else .FLOAT
                  if format = .FLOAT ∧ bitDepth ≠ 32 then none
                  else
                    -- `m_config.numChannels` is a `uint8_t`: the assignment
                    -- narrows the 16-bit field value
                    scanChunks r3 true foundData
                      { cfg with format := format,
                                 numChannels := numChannels % 256,
                                 bitDepth := bitDepth,
                                 sampleRate := sampleRate,
                                 blockAlign := blockAlign }
                else none
              else none
            else none
          else none
      else if id = dataId then
        scanChunks r2 foundFmt true { cfg with dataChunkSize := size }
      else
        scanChunks (r2.drop (roundUpEven size)) foundFmt foundData cfg
termination_by rem.length
decreasing_by
  all_goals simp_all [List.length_drop]
  all_goals omega

/-- Model of `WavReader::read_header`: require the `"RIFF"` marker, skip the 4-byte
RIFF chunk size, require the `"WAVE"` marker, then run the chunk scan with
the reader's default-initialized configuration. -/
def read_header (bytes : List Nat) : Option WavFileConfiguration :=
  if bytes.take 4 = riffId then
    let afterSize := (bytes.drop 4).drop 4
    if afterSize.take 4 = waveId then
      scanChunks (afterSize.drop 4) false false defaultConfig
    else none
  else none

/-- Model of `WavReader::create` / `open_file`: fail when the file cannot be opened
(`fileBytes = none`), otherwise succeed exactly when `read_header`
accepts the stream. -/
def readerCreate (fileBytes : Option (List Nat)) :
    Option WavFileConfiguration :=
  fileBytes.bind read_header

/-! ## Reader sample paths (src/inc/AudioFileTools/WavReader.h)

`stream` is the byte sequence remaining in the data chunk at the call. -/

/-- Model of `WavReader::read_raw_samples`: a zero-initialized buffer of
`byteCount` bytes, filled with as many stream bytes as remain; the buffer
is returned whole, with no check of how many bytes the read delivered. -/
def read_raw_samples (byteCount : Nat) (stream : List Nat) : List Nat :=
  (stream ++ List.replicate byteCount 0).take byteCount

/-- Model of `WavReader::read_samples<T>`: read `count * numChannels` samples of
`sizeofT` bytes each, count the complete samples the stream delivered
(`gcount / sizeof(T)`), drop any residual partial frame
(`samplesRead / numChannels`), and deinterleave
(`deinterleavedSamples[j][i] = interleavedSamples[i * numChannels + j]`).
`dec` decodes one sample from its `sizeofT` little-endian bytes. -/
def read_samples {α : Type} (dec : List Nat → α) (sizeofT : Nat)
    (stream : List Nat) (count nc : Nat) : List (List α) :=
  let requested := count * nc * sizeofT
  let gcount := min requested stream.length
  let samplesRead := gcount / sizeofT
  let framesRead := samplesRead / nc
  let raw := read_raw_samples requested stream
  (List.range nc).map fun j =>
    (List.range framesRead).map fun i =>
      dec ((raw.drop ((i * nc + j) * sizeofT)).take sizeofT)

/-- Truncation toward zero of a rational, as performed by the C++
implicit `float` → integer conversion. -/
def ratTruncToInt (q : ℚ) : Int := if 0 ≤ q then ⌊q⌋ else ⌈q⌉

/-- The `BIT_DEPTH_24` case of `WavReader::read<T>`: read
`count * numChannels * 3` raw bytes, reassemble each little-endian 3-byte
group, sign-extend bit 23 into the high byte of the 32-bit carrier, and
then — for every requested type `T` alike — convert each carrier through
`convert_int32_to_float` (abstracted as `cif`, a rounding of
`x / 2147483647`) followed by the implicit conversion from `float` to `T`
(`castQ`).  Note the double loop runs over all `count` frames whether or
not the stream delivered them; missing bytes read as zero. -/
def read24 {α : Type} (cif : Int → ℚ) (castQ : ℚ → α) (stream : List Nat)
    (count nc : Nat) : List (List α) :=
  let raw := read_raw_samples (count * nc * 3) stream
  (List.range nc).map fun j =>
    (List.range count).map fun i =>
      let b0 := raw.getD ((i * nc + j) * 3) 0 % 256
      let b1 := raw.getD ((i * nc + j) * 3 + 1) 0 % 256
      let b2 := raw.getD ((i * nc + j) * 3 + 2) 0 % 256
      let n := b0 + 256 * b1 + 65536 * b2
      let sample : Int := if 8388608 ≤ n then (n : Int) - 16777216 else n
      castQ (cif sample)

/-! ## On-disk chunk shapes (for stating header-parse properties) -/

/-- A RIFF subchunk as laid out on disk: 4-byte id, 4-byte little-endian
declared size, then the payload bytes. -/
structure RawChunk where
  id : List Nat
  declaredSize : Nat
  payload : List Nat

/-- The on-disk bytes of a subchunk. -/
def encodeRawChunk (c : RawChunk) : List Nat :=
  c.id ++ (encodeU32LE c.declaredSize ++ c.payload)

/-- A chunk the scanner must skip whole: a well-formed 4-byte id that is
neither `"fmt "` nor `"data"`, an encodable declared size, and a payload
padded to the next even byte as RIFF requires. -/
def skippableChunk (c : RawChunk) : Prop :=
  c.id.length = 4 ∧ c.id ≠ fmtId ∧ c.id ≠ dataId ∧
  c.declaredSize < 4294967296 ∧ c.payload.length = roundUpEven c.declaredSize

/-- The on-disk bytes of a canonical 16-byte `"fmt "` chunk carrying the
given field values. -/
def fmtChunkBytes (af nc sr br ba bd : Nat) : List Nat :=
  fmtId ++ (encodeU32LE 16 ++ (encodeU16LE af ++ (encodeU16LE nc ++
    (encodeU32LE sr ++ (encodeU32LE br ++ (encodeU16LE ba ++
      encodeU16LE bd))))))

/-- The field-value validation of `WavReader::read_header`, negated: an
audio-format tag outside `{1,3}`, a zero channel count, a bit depth
outside `{8,16,24,32}`, a sample rate outside the enumerated set, or
FLOAT format paired with a non-32-bit depth. -/
def invalidFmtFields (af nc sr bd : Nat) : Prop :=
  ¬(af = 1 ∨ af = 3) ∨ nc = 0 ∨
  ¬(bd = 8 ∨ bd = 16 ∨ bd = 24 ∨ bd = 32) ∨
  ¬sampleRateAllowed sr ∨ (af = 3 ∧ bd ≠ 32)

instance (af nc sr bd : Nat) : Decidable (invalidFmtFields af nc sr bd) := by
  unfold invalidFmtFields; infer_instance

/-! ## Theorems -/

/-- C4: every integer-to-integer scalar conversion function equals its
spec formula (§4.1) for every input value of the source type:
int16→uint8 is `((x>>8)+128)&0xFF`, int32→uint8 is `((x>>24)+128)&0xFF`,
uint8→int16 is `(x-128)*256`, int32→int16 is `x>>16` (arithmetic),
uint8→int24 is `(x-128)*65536`, int16→int24 is `x<<8`, int32→int24 is
`x>>8` (arithmetic), uint8→int32 is `(x-128)<<24`, int16→int32 is
`x<<16`. -/
theorem conversion_matrix_matches_spec :
    (∀ x : Int, -32768 ≤ x → x < 32768 →
      convert_int16_to_uint8 x = spec_int16_to_uint8 x) ∧
    (∀ x : Int, -2147483648 ≤ x → x < 2147483648 →
      convert_int32_to_uint8 x = spec_int32_to_uint8 x) ∧
    (∀ x : Int, 0 ≤ x → x < 256 →
      convert_uint8_to_int16 x = spec_uint8_to_int16 x) ∧
    (∀ x : Int, -2147483648 ≤ x → x < 2147483648 →
      convert_int32_to_int16 x = spec_int32_to_int16 x) ∧
    (∀ x : Int, 0 ≤ x → x < 256 →
      convert_uint8_to_int24 x = spec_uint8_to_int24 x) ∧
    (∀ x : Int, -32768 ≤ x → x < 32768 →
      convert_int16_to_int24 x = spec_int16_to_int24 x) ∧
    (∀ x : Int, -2147483648 ≤ x → x < 2147483648 →
      convert_int32_to_int24 x = spec_int32_to_int24 x) ∧
    (∀ x : Int, 0 ≤ x → x < 256 →
      convert_uint8_to_int32 x = spec_uint8_to_int32 x) ∧
    (∀ x : Int, -32768 ≤ x → x < 32768 →
      convert_int16_to_int32 x = spec_int16_to_int32 x) := by
  refine ⟨?_, ?_, ?_, ?_, ?_, ?_, ?_, ?_, ?_⟩ <;> intro x h1 h2 <;>
    simp only [convert_int16_to_uint8, spec_int16_to_uint8,
      convert_int32_to_uint8, spec_int32_to_uint8, convert_uint8_to_int16,
      spec_uint8_to_int16, convert_int32_to_int16, spec_int32_to_int16,
      convert_uint8_to_int24, spec_uint8_to_int24, convert_int16_to_int24,
      spec_int16_to_int24, convert_int32_to_int24, spec_int32_to_int24,
      convert_uint8_to_int32, spec_uint8_to_int32, convert_int16_to_int32,
      spec_int16_to_int32, wrapU8, wrapS16, wrapS32, asr] <;>
    norm_num <;> omega

/-- Witness for C4: the conversion/spec agreement evaluated at concrete
in-range sample values. -/
theorem conversion_matrix_matches_spec_witness :
    ((-32768 : Int) ≤ -12345 ∧ (-12345 : Int) < 32768 ∧
      convert_int16_to_uint8 (-12345) = spec_int16_to_uint8 (-12345)) ∧
    ((-2147483648 : Int) ≤ -123456789 ∧ (-123456789 : Int) < 2147483648 ∧
      convert_int32_to_uint8 (-123456789) = spec_int32_to_uint8 (-123456789)) ∧
    ((0 : Int) ≤ 200 ∧ (200 : Int) < 256 ∧
      convert_uint8_to_int16 200 = spec_uint8_to_int16 200) ∧
    ((-2147483648 : Int) ≤ -123456789 ∧ (-123456789 : Int) < 2147483648 ∧
      convert_int32_to_int16 (-123456789) = spec_int32_to_int16 (-123456789)) ∧
    ((0 : Int) ≤ 17 ∧ (17 : Int) < 256 ∧
      convert_uint8_to_int24 17 = spec_uint8_to_int24 17) ∧
    ((-32768 : Int) ≤ -1 ∧ (-1 : Int) < 32768 ∧
      convert_int16_to_int24 (-1) = spec_int16_to_int24 (-1)) ∧
    ((-2147483648 : Int) ≤ -999 ∧ (-999 : Int) < 2147483648 ∧
      convert_int32_to_int24 (-999) = spec_int32_to_int24 (-999)) ∧
    ((0 : Int) ≤ 255 ∧ (255 : Int) < 256 ∧
      convert_uint8_to_int32 255 = spec_uint8_to_int32 255) ∧
    ((-32768 : Int) ≤ 32767 ∧ (32767 : Int) < 32768 ∧
      convert_int16_to_int32 32767 = spec_int16_to_int32 32767) :=
  ⟨⟨by decide, by decide,
      conversion_matrix_matches_spec.1 (-12345) (by decide) (by decide)⟩,
   ⟨by decide, by decide,
      conversion_matrix_matches_spec.2.1 (-123456789) (by decide) (by decide)⟩,
   ⟨by decide, by decide,
      conversion_matrix_matches_spec.2.2.1 200 (by decide) (by decide)⟩,
   ⟨by decide, by decide,
      conversion_matrix_matches_spec.2.2.2.1 (-123456789) (by decide)
        (by decide)⟩,
   ⟨by decide, by decide,
      conversion_matrix_matches_spec.2.2.2.2.1 17 (by decide) (by decide)⟩,
   ⟨by decide, by decide,
      conversion_matrix_matches_spec.2.2.2.2.2.1 (-1) (by decide)
        (by decide)⟩,
   ⟨by decide, by decide,
      conversion_matrix_matches_spec.2.2.2.2.2.2.1 (-999) (by decide)
        (by decide)⟩,
   ⟨by decide, by decide,
      conversion_matrix_matches_spec.2.2.2.2.2.2.2.1 255 (by decide)
        (by decide)⟩,
   ⟨by decide, by decide,
      conversion_matrix_matches_spec.2.2.2.2.2.2.2.2 32767 (by decide)
        (by decide)⟩⟩

/-- C10: widening then narrowing along the same conversion path is the
identity: uint8→int16→uint8, uint8→int32→uint8 and int16→int32→int16 all
reproduce the original value. -/
theorem widen_then_narrow_is_identity :
    (∀ x : Int, 0 ≤ x → x < 256 →
      convert_int16_to_uint8 (convert_uint8_to_int16 x) = x) ∧
    (∀ x : Int, 0 ≤ x → x < 256 →
      convert_int32_to_uint8 (convert_uint8_to_int32 x) = x) ∧
    (∀ x : Int, -32768 ≤ x → x < 32768 →
      convert_int32_to_int16 (convert_int16_to_int32 x) = x) := by
  refine ⟨?_, ?_, ?_⟩ <;> intro x h1 h2 <;>
    simp only [convert_int16_to_uint8, convert_uint8_to_int16,
      convert_int32_to_uint8, convert_uint8_to_int32, convert_int32_to_int16,
      convert_int16_to_int32, wrapU8, wrapS16, wrapS32, asr] <;>
    norm_num <;> omega

/-- Witness for C10: the three round trips evaluated at concrete
in-range sample values. -/
theorem widen_then_narrow_is_identity_witness :
    ((0 : Int) ≤ 211 ∧ (211 : Int) < 256 ∧
      convert_int16_to_uint8 (convert_uint8_to_int16 211) = 211) ∧
    ((0 : Int) ≤ 3 ∧ (3 : Int) < 256 ∧
      convert_int32_to_uint8 (convert_uint8_to_int32 3) = 3) ∧
    ((-32768 : Int) ≤ -32768 ∧ (-32768 : Int) < 32768 ∧
      convert_int32_to_int16 (convert_int16_to_int32 (-32768)) = -32768) :=
  ⟨⟨by decide, by decide,
      widen_then_narrow_is_identity.1 211 (by decide) (by decide)⟩,
   ⟨by decide, by decide,
      widen_then_narrow_is_identity.2.1 3 (by decide) (by decide)⟩,
   ⟨by decide, by decide,
      widen_then_narrow_is_identity.2.2 (-32768) (by decide) (by decide)⟩⟩

/-- C1 (evaluation at the failing input): for `numChannels = 2` and one
frame, the PCM24 write loop faults — its byte index
`((i*nc+ch)*3+k)*nc+ch` for frame 0, channel 1 already reaches 7, past
the end of the `frameCount*numChannels*3 = 6`-byte buffer — whereas the
offset the spec assigns to that byte, `(i*nc+ch)*3+k`, is in bounds.
For `numChannels = 1` the two index formulas coincide. -/
theorem pcm24_write_index_out_of_bounds :
    pcm24PackLoop (fun _ _ => 0) 1 2 = none ∧
    1 * 2 * 3 ≤ pcm24PackIndex 0 1 0 2 ∧
    spec_pcm24_offset 0 1 2 2 < 1 * 2 * 3 ∧
    (∀ i k : Nat, pcm24PackIndex i 0 k 1 = spec_pcm24_offset i 0 k 1) :=
  ⟨by decide, by decide, by decide,
   fun i k => by simp [pcm24PackIndex, spec_pcm24_offset]⟩

/-- C7 (evaluation at the failing input): `WavWriter::create` performs no
validation — a configuration with `format = FLOAT` and `bitDepth = 16`
still yields a writer whenever the target path opens. -/
theorem writer_create_accepts_float16 :
    (writerCreate
      { sampleRate := 44100, numChannels := 1, bitDepth := 16,
        format := .FLOAT, blockAlign := 0, dataChunkSize := 0 }
      true).isSome = true := rfl

/-- C9: `WavWriter::write` fails the
`assert(num_arrays == m_config.numChannels)` before any sample is
converted or written whenever the supplied channel-pointer count differs
from the configured channel count, and under the precondition
`numArrays = numChannels` the assertion never fires and `write_buffer`
is reached. -/
theorem write_channel_count_assertion (numArrays : Nat)
    (cfg : WavFileConfiguration) (cf32 : Int → List Nat)
    (f : Nat → Nat → Int) (count : Nat) (s : WriterState) :
    (numArrays ≠ cfg.numChannels →
      writerWrite numArrays cfg cf32 f count s = .assertionFailure) ∧
    (numArrays = cfg.numChannels →
      writerWrite numArrays cfg cf32 f count s =
        .completed (write_buffer cfg cf32 f count s)) := by
  constructor <;> intro h <;> simp [writerWrite, h]

/-- Witness for C9: a 3-channel configuration, called once with 2 channel
pointers (assertion fires) and once with 3 (the buffer write runs). -/
theorem write_channel_count_assertion_witness :
    ((2 : Nat) ≠ 3 ∧
      writerWrite 2
        { sampleRate := 8000, numChannels := 3, bitDepth := 16,
          format := .PCM, blockAlign := 0, dataChunkSize := 0 }
        (fun _ => [0, 0, 0, 0]) (fun _ _ => 0) 1
        ⟨true, 0, 44, fun _ => 0⟩ = .assertionFailure) ∧
    ((3 : Nat) = 3 ∧
      writerWrite 3
        { sampleRate := 8000, numChannels := 3, bitDepth := 16,
          format := .PCM, blockAlign := 0, dataChunkSize := 0 }
        (fun _ => [0, 0, 0, 0]) (fun _ _ => 0) 1
        ⟨true, 0, 44, fun _ => 0⟩ =
        .completed (write_buffer
          { sampleRate := 8000, numChannels := 3, bitDepth := 16,
            format := .PCM, blockAlign := 0, dataChunkSize := 0 }
          (fun _ => [0, 0, 0, 0]) (fun _ _ => 0) 1
          ⟨true, 0, 44, fun _ => 0⟩)) :=
  ⟨⟨by decide,
     (write_channel_count_assertion 2 _ _ _ _ _).1 (by decide)⟩,
   ⟨rfl,
     (write_channel_count_assertion 3 _ _ _ _ _).2 rfl⟩⟩

/-- C2 (evaluation at the failing input): on a 24-bit PCM mono file whose
three data bytes encode the carrier value 1, `read<int32_t>` does not
return the native carrier unchanged — the `BIT_DEPTH_24` case pipes every
requested type through `convert_int32_to_float`, and the implicit
truncating conversion back to `int32_t` collapses the sample to 0.  The
hypotheses say only that the float division `1 / 2147483647.0f` lies
strictly between 0 and 1, which any rounding of it does. -/
theorem pcm24_read_int32_is_not_identity (cif : Int → ℚ)
    (h0 : 0 < cif 1) (h1 : cif 1 < 1) :
    read24 cif ratTruncToInt [1, 0, 0] 1 1 = [[0]] ∧
    ([[0]] : List (List Int)) ≠ [[1]] := by
  constructor
  · show [[ratTruncToInt (cif 1)]] = [[0]]
    have h2 : ratTruncToInt (cif 1) = 0 := by
      rw [ratTruncToInt, if_pos h0.le, Int.floor_eq_zero_iff, Set.mem_Ico]
      exact ⟨h0.le, h1⟩
    rw [h2]
  · decide

/-- Witness for C2: the float conversion instantiated with the exact
rational value of `x / 2147483647`. -/
theorem pcm24_read_int32_is_not_identity_witness :
    (0 < (fun x : Int => (x : ℚ) / 2147483647) 1) ∧
    ((fun x : Int => (x : ℚ) / 2147483647) 1 < 1) ∧
    (read24 (fun x : Int => (x : ℚ) / 2147483647) ratTruncToInt [1, 0, 0] 1 1 =
        [[0]] ∧
      ([[0]] : List (List Int)) ≠ [[1]]) :=
  ⟨by norm_num, by norm_num,
   pcm24_read_int32_is_not_identity (fun x => (x : ℚ) / 2147483647)
     (by norm_num) (by norm_num)⟩

/-- C3 (evaluation at the failing input): a 24-bit stereo stream holding
six bytes — exactly one complete frame — asked for two frames yields
per-channel buffers of length 2, not 1: the `BIT_DEPTH_24` read path
never consults how many bytes the stream delivered and zero-fills the
shortfall.  The generic `read_samples` path, by contrast, truncates: six
one-byte samples over two channels asked for four frames yield exactly
three frames per channel. -/
theorem pcm24_read_does_not_truncate_short_streams :
    ((read24 (fun x : Int => (x : ℚ) / 2147483647) (fun q => q)
        [0, 0, 0, 0, 0, 0] 2 2).map List.length = [2, 2]) ∧
    ((read_samples (fun l => l.getD 0 0) 1 [0, 0, 0, 0, 0, 0] 4 2).map
        List.length = [3, 3]) :=
  ⟨rfl, rfl⟩

/-- C5: `WavWriter::close_file` is idempotent; on the first call (stream
still open) it overwrites the u32 at byte offset 4 with
`36 + totalDataBytes` and the u32 at byte offset 40 with
`totalDataBytes`, and closes the stream; destruction performs the same
finalize-then-close sequence; and the running total accumulates 3 bytes
per sample for 24-bit PCM and `sizeof(T)` bytes per sample otherwise
(wrapping as the `uint32_t` accumulator does). -/
theorem close_file_finalizes_header :
    (∀ s : WriterState, close_file (close_file s) = close_file s) ∧
    (∀ s : WriterState, s.fileOpen = true →
      (close_file s).fileOpen = false ∧
      readU32At (close_file s).file 4 = (36 + s.totalFileSize) % 4294967296 ∧
      readU32At (close_file s).file 40 = s.totalFileSize % 4294967296) ∧
    (∀ s : WriterState, writerDestructor s = close_file s) ∧
    (∀ (s : WriterState) (f : Nat → Nat → Int) (count nc : Nat)
        (s2 : WriterState), write_to_pcm24 f count nc s = some s2 →
      s2.totalFileSize = (s.totalFileSize + count * nc * 3) % 4294967296) ∧
    (∀ (s : WriterState) (f : Nat → Nat → Int) (count nc : Nat),
      (write_to_pcm8 f count nc s).totalFileSize =
        (s.totalFileSize + count * nc * 1) % 4294967296) ∧
    (∀ (s : WriterState) (f : Nat → Nat → Int) (count nc : Nat),
      (write_to_pcm16 f count nc s).totalFileSize =
        (s.totalFileSize + count * nc * 2) % 4294967296) ∧
    (∀ (s : WriterState) (f : Nat → Nat → Int) (count nc : Nat),
      (write_to_pcm32 f count nc s).totalFileSize =
        (s.totalFileSize + count * nc * 4) % 4294967296) ∧
    (∀ (s : WriterState) (fb : Nat → Nat → List Nat) (count nc : Nat),
      (write_to_float32 fb count nc s).totalFileSize =
        (s.totalFileSize + count * nc * 4) % 4294967296) := by
  refine ⟨?_, ?_, ?_, ?_, ?_, ?_, ?_, ?_⟩
  · intro s
    by_cases h : s.fileOpen <;> simp [close_file, h]
  · intro s h
    refine ⟨by simp [close_file, h], ?_, ?_⟩ <;>
      · simp [close_file, h, finalize_header, readU32At, storeBytes,
          encodeU32LE]
        omega
  · intro s
    by_cases h : s.fileOpen <;> simp [writerDestructor, close_file, h]
  · intro s f count nc s2 h
    rcases hp : pcm24PackLoop f count nc with _ | buf <;>
      rw [write_to_pcm24, hp] at h
    · exact absurd h (by simp)
    · simp only [Option.map, Option.some.injEq] at h
      rw [← h]
      simp [write_samples, appendBytes]
  · intro s f count nc
    simp [write_to_pcm8, write_samples, appendBytes, Nat.mul_assoc]
  · intro s f count nc
    simp [write_to_pcm16, write_samples, appendBytes, Nat.mul_assoc]
  · intro s f count nc
    simp [write_to_pcm32, write_samples, appendBytes, Nat.mul_assoc]
  · intro s fb count nc
    simp [write_to_float32, write_samples, appendBytes, Nat.mul_assoc]

/-- Witness for C5: a writer state that is open with 10 data bytes
accumulated; closing patches offsets 4 and 40, and a one-frame mono PCM24
write accumulates exactly 3 bytes. -/
theorem close_file_finalizes_header_witness :
    ((⟨true, 10, 44, fun _ => 0⟩ : WriterState).fileOpen = true ∧
      (close_file ⟨true, 10, 44, fun _ => 0⟩).fileOpen = false ∧
      readU32At (close_file ⟨true, 10, 44, fun _ => 0⟩).file 4 =
        (36 + 10) % 4294967296 ∧
      readU32At (close_file ⟨true, 10, 44, fun _ => 0⟩).file 40 =
        10 % 4294967296) ∧
    (write_to_pcm24 (fun _ _ => 0) 1 1 ⟨true, 10, 44, fun _ => 0⟩ =
        some (write_samples ⟨true, 10, 44, fun _ => 0⟩ [0, 0, 0] 3 1 true) ∧
      (write_samples (⟨true, 10, 44, fun _ => 0⟩ : WriterState) [0, 0, 0] 3 1
          true).totalFileSize = (10 + 1 * 1 * 3) % 4294967296) :=
  ⟨⟨rfl, close_file_finalizes_header.2.1 ⟨true, 10, 44, fun _ => 0⟩ rfl⟩,
   ⟨rfl, close_file_finalizes_header.2.2.2.1 ⟨true, 10, 44, fun _ => 0⟩
      (fun _ _ => 0) 1 1 _ rfl⟩⟩

/-- Decoding inverts the little-endian `u16` encoding. -/
lemma leU16_encodeU16LE (v : Nat) (h : v < 65536) :
    leU16 (encodeU16LE v) = v := by
  simp [leU16, encodeU16LE]
  omega

/-- Decoding inverts the little-endian `u32` encoding. -/
lemma leU32_encodeU32LE (v : Nat) (h : v < 4294967296) :
    leU32 (encodeU32LE v) = v := by
  simp [leU32, encodeU32LE]
  omega

/-- The chunk scanner consumes a subchunk that is neither `"fmt "` nor
`"data"` whole — its declared size rounded up to even — and continues
with the rest of the stream unchanged. -/
lemma scanChunks_skip_unknown (id : List Nat) (size : Nat)
    (payload rest : List Nat) (hid4 : id.length = 4) (hfmt : id ≠ fmtId)
    (hdata : id ≠ dataId) (hsize : size < 4294967296)
    (hpay : payload.length = roundUpEven size) (ff fd : Bool)
    (cfg : WavFileConfiguration) :
    scanChunks (id ++ (encodeU32LE size ++ (payload ++ rest))) ff fd cfg =
      scanChunks rest ff fd cfg := by
  by_cases hffd : ff = true ∧ fd = true
  · rw [scanChunks, scanChunks]
    simp [hffd.1, hffd.2]
  · rw [scanChunks]
    rw [if_neg hffd]
    rw [dif_neg (by simp [hid4, encodeU32LE])]
    simp only [List.take_left' hid4, List.drop_left' hid4]
    rw [dif_neg (by simp [encodeU32LE])]
    simp only [List.take_left' (show (encodeU32LE size).length = 4 by
      simp [encodeU32LE])]
    simp only [List.drop_left' (show (encodeU32LE size).length = 4 by
      simp [encodeU32LE])]
    rw [if_neg hfmt, if_neg hdata, leU32_encodeU32LE size hsize,
      ← hpay, List.drop_left]

/-- A `"fmt "` chunk carrying any unsupported field value makes the chunk
scan fail, whatever follows it in the stream. -/
lemma scanChunks_fmt_invalid (af nc sr br ba bd : Nat) (haf : af < 65536)
    (hnc : nc < 65536) (hsr : sr < 4294967296) (hbd : bd < 65536)
    (hinv : invalidFmtFields af nc sr bd) (rest : List Nat) (fd : Bool)
    (cfg : WavFileConfiguration) :
    scanChunks (fmtChunkBytes af nc sr br ba bd ++ rest) false fd cfg =
      none := by
  simp only [fmtChunkBytes, fmtId, encodeU16LE, encodeU32LE,
    List.cons_append, List.nil_append]
  rw [scanChunks]
  rw [if_neg (by simp)]
  rw [dif_neg (by simp)]
  simp only [List.take_succ_cons, List.take_zero, List.drop_succ_cons,
    List.drop_zero, List.length_cons, leU16, leU32, List.getD_cons_zero,
    List.getD_cons_succ]
  have e_af : af % 256 + 256 * (af / 256 % 256) = af := by omega
  have e_nc : nc % 256 + 256 * (nc / 256 % 256) = nc := by omega
  have e_bd : bd % 256 + 256 * (bd / 256 % 256) = bd := by omega
  have e_sr : sr % 256 + 256 * (sr / 256 % 256) + 65536 * (sr / 65536 % 256) +
      16777216 * (sr / 16777216 % 256) = sr := by omega
  rw [dif_neg (by simp)]
  rw [if_pos (show ([102, 109, 116, 32] : List Nat) = fmtId from rfl)]
  rw [if_neg (by omega)]
  simp only [e_af, e_nc, e_bd, e_sr]
  split_ifs <;>
    first
      | rfl
      | (exfalso
         rcases hinv with h | h | h | h | h <;> simp_all [sampleRateAllowed])

/-- The chunk scanner skips any sequence of well-formed non-fmt/non-data
chunks. -/
lemma scanChunks_skip_all (pre : List RawChunk)
    (hpre : ∀ c ∈ pre, skippableChunk c) (tail : List Nat) (ff fd : Bool)
    (cfg : WavFileConfiguration) :
    scanChunks ((pre.map encodeRawChunk).flatten ++ tail) ff fd cfg =
      scanChunks tail ff fd cfg := by
  induction pre with
  | nil => simp
  | cons c cs ih =>
    obtain ⟨h1, h2, h3, h4, h5⟩ := hpre c (by simp)
    have hrec := ih (fun d hd => hpre d (by simp [hd]))
    calc scanChunks (((c :: cs).map encodeRawChunk).flatten ++ tail) ff fd cfg
        = scanChunks (c.id ++ (encodeU32LE c.declaredSize ++ (c.payload ++
            ((cs.map encodeRawChunk).flatten ++ tail)))) ff fd cfg := by
          simp [encodeRawChunk, List.append_assoc]
      _ = scanChunks ((cs.map encodeRawChunk).flatten ++ tail) ff fd cfg :=
          scanChunks_skip_unknown c.id c.declaredSize c.payload _ h1 h2 h3 h4
            h5 ff fd cfg
      _ = scanChunks tail ff fd cfg := hrec

/-- C6: the reader rejects (absent result) any stream whose fmt chunk —
however many well-formed unknown chunks precede it — carries an
unsupported field value: audio-format tag outside `{1,3}`, channel count
0, bit depth outside `{8,16,24,32}`, sample rate outside the enumerated
set, or FLOAT format paired with a non-32-bit depth (so in particular a
FLOAT/16-bit fmt chunk fails to open). -/
theorem reader_rejects_unsupported_fmt_fields (pre : List RawChunk)
    (hpre : ∀ c ∈ pre, skippableChunk c) (ck : List Nat)
    (hck : ck.length = 4) (af nc sr br ba bd : Nat) (haf : af < 65536)
    (hnc : nc < 65536) (hsr : sr < 4294967296) (hbd : bd < 65536)
    (hinv : invalidFmtFields af nc sr bd) (rest : List Nat) :
    read_header (riffId ++ (ck ++ (waveId ++
      ((pre.map encodeRawChunk).flatten ++
        (fmtChunkBytes af nc sr br ba bd ++ rest))))) = none := by
  rw [read_header]
  simp only [List.take_left' (show riffId.length = 4 from rfl),
    List.drop_left' (show riffId.length = 4 from rfl), List.drop_left' hck,
    List.take_left' (show waveId.length = 4 from rfl),
    List.drop_left' (show waveId.length = 4 from rfl), reduceIte]
  rw [scanChunks_skip_all pre hpre]
  exact scanChunks_fmt_invalid af nc sr br ba bd haf hnc hsr hbd hinv rest
    false defaultConfig

/-- Witness for C6: a concrete stream whose fmt chunk declares FLOAT
format with bit depth 16 (and an otherwise valid field set, followed by a
data chunk) fails to parse. -/
theorem reader_rejects_unsupported_fmt_fields_witness :
    read_header (riffId ++ ([0, 0, 0, 0] ++ (waveId ++
      (((([] : List RawChunk)).map encodeRawChunk).flatten ++
        (fmtChunkBytes 3 1 44100 176400 4 16 ++
          (dataId ++ encodeU32LE 0)))))) = none :=
  reader_rejects_unsupported_fmt_fields [] (by simp) [0, 0, 0, 0] rfl
    3 1 44100 176400 4 16 (by decide) (by decide) (by decide) (by decide)
    (by decide) (dataId ++ encodeU32LE 0)

/-- Counterexample to C8 as stated: the claim says an unknown chunk of
odd declared size `s` advances `s + 1` payload bytes, but the skip amount
`(subchunkSize + 1) & ~1` is computed in `uint32_t` arithmetic, so the
odd size `4294967295` wraps and advances 0 bytes.  On a stream whose
unknown chunk declares size `4294967295` and is followed by 32 bytes of
valid fmt and data chunks, skipping `s + 1` bytes would exhaust the
stream and reject it; the scanner instead advances nothing and accepts
the stream. -/
theorem header_scan_skip_wraps_counterexample :
    Odd 4294967295 ∧ roundUpEven 4294967295 = 0 ∧
    read_header (riffId ++ ([0, 0, 0, 0] ++ (waveId ++
      ([1, 2, 3, 4] ++ (encodeU32LE 4294967295 ++
        (fmtChunkBytes 1 1 44100 88200 2 16 ++
          (dataId ++ encodeU32LE 4))))))) =
      some { sampleRate := 44100, numChannels := 1, bitDepth := 16,
             format := .PCM, blockAlign := 2, dataChunkSize := 4 } ∧
    (fmtChunkBytes 1 1 44100 88200 2 16 ++
      (dataId ++ encodeU32LE 4)).length < 4294967295 + 1 := by
  refine ⟨by decide, by decide, ?_, by decide⟩
  rw [read_header]
  simp only [List.take_left' (show riffId.length = 4 from rfl),
    List.drop_left' (show riffId.length = 4 from rfl),
    List.drop_left' (show ([0, 0, 0, 0] : List Nat).length = 4 from rfl),
    List.take_left' (show waveId.length = 4 from rfl),
    List.drop_left' (show waveId.length = 4 from rfl), reduceIte]
  rw [show ([1, 2, 3, 4] ++ (encodeU32LE 4294967295 ++
        (fmtChunkBytes 1 1 44100 88200 2 16 ++
          (dataId ++ encodeU32LE 4)))) =
      ([1, 2, 3, 4] ++ (encodeU32LE 4294967295 ++ ([] ++
        (fmtChunkBytes 1 1 44100 88200 2 16 ++
          (dataId ++ encodeU32LE 4))))) from rfl]
  rw [scanChunks_skip_unknown [1, 2, 3, 4] 4294967295 [] _ rfl (by decide)
    (by decide) (by decide) (by decide) false false defaultConfig]
  rw [scanChunks]
  norm_num [fmtChunkBytes, fmtId, dataId, encodeU16LE, encodeU32LE, leU16,
    leU32, sampleRateAllowed]
  refine ⟨by decide, ?_⟩
  rw [scanChunks]
  norm_num [fmtId, dataId, leU32]
  rw [scanChunks]
  norm_num [defaultConfig]

/-- C8 (amended): during header parse, every subchunk whose id is neither
`"fmt "` nor `"data"` is skipped whole by advancing its declared size
rounded up to the next even byte computed in `uint32_t` arithmetic — an
odd size `s` with `s + 1 < 2^32` advances `s + 1` bytes, while the odd
size `4294967295` wraps and advances 0 bytes — and the scan after it
proceeds on the rest of the stream exactly as if the chunk were absent
(so a later fmt or data chunk is still found); the loop stops with
success as soon as both fmt and data have been found, whatever bytes
remain; and exhausting the stream without both found fails the parse. -/
theorem header_scan_skip_and_stop :
    (∀ (id : List Nat) (size : Nat) (payload rest : List Nat),
      id.length = 4 → id ≠ fmtId → id ≠ dataId → size < 4294967296 →
      payload.length = roundUpEven size → ∀ (ff fd : Bool)
      (cfg : WavFileConfiguration),
      scanChunks (id ++ (encodeU32LE size ++ (payload ++ rest))) ff fd cfg =
        scanChunks rest ff fd cfg) ∧
    (∀ s : Nat, Odd s → s + 1 < 4294967296 → roundUpEven s = s + 1) ∧
    roundUpEven 4294967295 = 0 ∧
    (∀ (rem : List Nat) (cfg : WavFileConfiguration),
      scanChunks rem true true cfg = some cfg) ∧
    (∀ (ff fd : Bool) (cfg : WavFileConfiguration),
      ¬(ff = true ∧ fd = true) → scanChunks [] ff fd cfg = none) := by
  refine ⟨?_, ?_, by decide, ?_, ?_⟩
  · intro id size payload rest h1 h2 h3 h4 h5 ff fd cfg
    exact scanChunks_skip_unknown id size payload rest h1 h2 h3 h4 h5 ff fd
      cfg
  · intro s hs hlt
    obtain ⟨k, rfl⟩ := hs
    simp [roundUpEven]
    omega
  · intro rem cfg
    rw [scanChunks]
    simp
  · intro ff fd cfg h
    rw [scanChunks]
    rw [if_neg h, dif_pos (by simp)]

/-- Witness for C8: a concrete unknown chunk with odd declared size 3 is
skipped via 4 payload bytes, a scan with both chunks found returns
immediately, and the empty stream without both found fails. -/
theorem header_scan_skip_and_stop_witness :
    (([1, 2, 3, 4] : List Nat).length = 4 ∧
      ([1, 2, 3, 4] : List Nat) ≠ fmtId ∧
      ([1, 2, 3, 4] : List Nat) ≠ dataId ∧ (3 : Nat) < 4294967296 ∧
      ([9, 9, 9, 9] : List Nat).length = roundUpEven 3 ∧
      scanChunks ([1, 2, 3, 4] ++ (encodeU32LE 3 ++ ([9, 9, 9, 9] ++ [])))
          false false defaultConfig =
        scanChunks [] false false defaultConfig) ∧
    (Odd 3 ∧ (3 : Nat) + 1 < 4294967296 ∧ roundUpEven 3 = 3 + 1) ∧
    scanChunks [10, 20] true true defaultConfig = some defaultConfig ∧
    (¬(false = true ∧ false = true) ∧
      scanChunks [] false false defaultConfig = none) :=
  ⟨⟨rfl, by decide, by decide, by decide, by decide,
     header_scan_skip_and_stop.1 [1, 2, 3, 4] 3 [9, 9, 9, 9] [] rfl
       (by decide) (by decide) (by decide) (by decide) false false
       defaultConfig⟩,
   ⟨by decide, by decide, header_scan_skip_and_stop.2.1 3 (by decide)
      (by decide)⟩,
   header_scan_skip_and_stop.2.2.2.1 [10, 20] defaultConfig,
   ⟨by decide, header_scan_skip_and_stop.2.2.2.2 false false defaultConfig
      (by decide)⟩⟩

end WavTools
